import Mathlib

/-
  Verification development for the NEST `glif` neuron model
  (src/models/glif.h): a shallow embedding of the configuration
  data model, the status-dictionary update protocol, the receptor
  checks of the connection handshake, the model-variant alias table,
  and (modelled from the spec, since the integration bodies are not
  part of the header) the voltage-update formulas and the refractory
  state machine.

  Doubles are embedded as ℚ where the code is finite arithmetic and
  as ℝ where the dynamics involve the exponential function.
-/

namespace NestGlif

/-- Errors surfaced by the model: `BadProperty` from configuration
validation and `UnknownReceptorType` from the connection handshake
(`nest::UnknownReceptorType( receptor_type, get_name() )`). -/
inductive GlifError where
  | BadProperty : GlifError
  | UnknownReceptorType : Int → GlifError
deriving DecidableEq

/-- The model-variant alias table `glif::model_type_lu` of
src/models/glif.h lines 128-134, transcribed pair for pair. -/
def model_type_lu : List (String × Int) :=
  [("lif", 1), ("glif_lif", 1), ("1", 1),
   ("lif_r", 2), ("glif_lif_r", 2), ("2", 2),
   ("lif_asc", 3), ("glif_lif_asc", 3), ("3", 3),
   ("lif_r_asc", 4), ("glif_lif_r_asc", 4), ("4", 4),
   ("lif_r_asc_a", 5), ("glif_lif_r_asc_a", 5), ("5", 5)]

/-- Lower-casing of an ASCII token, character by character. -/
def lowerString (s : String) : String :=
  ⟨s.data.map Char.toLower⟩

/-- Case-insensitive lookup into the alias table (the spec's
configuration boundary accepts case-insensitive variant aliases). -/
def lookupModelType (tok : String) : Option Int :=
  List.lookup (lowerString tok) model_type_lu

/-- The two `V_dynamics_method` tokens documented in the header:
`linear_forward_euler` maps to method flag 0 and `linear_exact` to
method flag 1 (the `Variables_::method_` convention of the source). -/
def lookupMethod (tok : String) : Option Int :=
  if lowerString tok = "linear_forward_euler" then some 0
  else if lowerString tok = "linear_exact" then some 1
  else none

/-- `glif::Parameters_` of src/models/glif.h lines 161-194: the
biophysical constants, the four parallel after-spike-current arrays,
the voltage-dynamics method token and the model-variant token. -/
structure Parameters_ where
  V_reset_ : ℚ
  th_inf_ : ℚ
  G_ : ℚ
  E_L_ : ℚ
  C_m_ : ℚ
  t_ref_ : ℚ
  a_spike_ : ℚ
  b_spike_ : ℚ
  voltage_reset_a_ : ℚ
  voltage_reset_b_ : ℚ
  a_voltage_ : ℚ
  b_voltage_ : ℚ
  asc_init_ : List ℚ
  k_ : List ℚ
  asc_amps_ : List ℚ
  r_ : List ℚ
  V_dynamics_method_ : String
  glif_model_ : String
deriving DecidableEq

/-- `glif::State_` of src/models/glif.h lines 197-211: membrane
potential, the after-spike-current vector, its cached sum, the
threshold and the external current. -/
structure State_ where
  V_m_ : ℚ
  ASCurrents_ : List ℚ
  ASCurrents_sum_ : ℚ
  threshold_ : ℚ
  I_ : ℚ
deriving DecidableEq

/-- `glif::get_AScurrents_sum_` of src/models/glif.h lines 243-247.
The body is `return S_.ASCurrents_[ 0 ];` — it reads element 0 of the
after-spike-current vector. `std::vector::operator[]` on an empty
vector is out of bounds, modelled here by `none`. -/
def get_AScurrents_sum_ (s : State_) : Option ℚ :=
  s.ASCurrents_[0]?

/-- `glif::get_V_m_` of src/models/glif.h lines 237-241. -/
def get_V_m_ (s : State_) : ℚ :=
  s.V_m_

/-- The flat status dictionary of the configuration boundary: each
recognized key of the header's documentation block, present or absent. -/
structure DictionaryDatum where
  V_m : Option ℚ
  V_th : Option ℚ
  g : Option ℚ
  E_L : Option ℚ
  C_m : Option ℚ
  t_ref : Option ℚ
  a_spike : Option ℚ
  b_spike : Option ℚ
  a_reset : Option ℚ
  b_reset : Option ℚ
  a_voltage : Option ℚ
  b_voltage : Option ℚ
  asc_init : Option (List ℚ)
  k : Option (List ℚ)
  asc_amps : Option (List ℚ)
  r : Option (List ℚ)
  V_dynamics_method : Option String
  glif_model : Option String
deriving DecidableEq

/-- The dictionary with no keys present. -/
def emptyDict : DictionaryDatum :=
  ⟨none, none, none, none, none, none, none, none, none,
   none, none, none, none, none, none, none, none, none⟩

/-- Modelled from the spec: the body of `glif::Parameters_::set` is
not part of the header; per the spec's configuration boundary, each
recognized key present in the dictionary overwrites the corresponding
field of the (copied) parameter set, and unknown keys are ignored. -/
def applyDict (d : DictionaryDatum) (p : Parameters_) : Parameters_ :=
  { p with
    G_ := d.g.getD p.G_
    E_L_ := d.E_L.getD p.E_L_
    C_m_ := d.C_m.getD p.C_m_
    t_ref_ := d.t_ref.getD p.t_ref_
    a_spike_ := d.a_spike.getD p.a_spike_
    b_spike_ := d.b_spike.getD p.b_spike_
    voltage_reset_a_ := d.a_reset.getD p.voltage_reset_a_
    voltage_reset_b_ := d.b_reset.getD p.voltage_reset_b_
    a_voltage_ := d.a_voltage.getD p.a_voltage_
    b_voltage_ := d.b_voltage.getD p.b_voltage_
    asc_init_ := d.asc_init.getD p.asc_init_
    k_ := d.k.getD p.k_
    asc_amps_ := d.asc_amps.getD p.asc_amps_
    r_ := d.r.getD p.r_
    V_dynamics_method_ := d.V_dynamics_method.getD p.V_dynamics_method_
    glif_model_ := d.glif_model.getD p.glif_model_ }

/-- Modelled from the spec: the parameter invariant enforced by
validation — positive capacitance, non-negative conductance and
refractory duration, pairwise equal-length after-spike-current
arrays, and recognized model-variant and integration-method tokens. -/
def validParams (q : Parameters_) : Prop :=
  0 < q.C_m_ ∧ 0 ≤ q.G_ ∧ 0 ≤ q.t_ref_ ∧
  q.k_.length = q.asc_init_.length ∧
  q.asc_amps_.length = q.asc_init_.length ∧
  q.r_.length = q.asc_init_.length ∧
  lookupModelType q.glif_model_ ≠ none ∧
  lookupMethod q.V_dynamics_method_ ≠ none

instance (q : Parameters_) : Decidable (validParams q) := by
  unfold validParams
  infer_instance

/-- Modelled from the spec: the validation performed by
`glif::Parameters_::set` (body not in the header). It applies the
dictionary to the parameter copy and rejects — throwing `BadProperty`
— non-positive capacitance, negative conductance, negative refractory
duration, mismatched after-spike-current array lengths, and unknown
`model_variant` or `integration_method` tokens; otherwise it returns
the updated snapshot. -/
def Parameters_.set (d : DictionaryDatum) (p : Parameters_) :
    Except GlifError Parameters_ :=
  if validParams (applyDict d p)
  then Except.ok (applyDict d p)
  else Except.error GlifError.BadProperty

/-- Modelled from the spec: the body of `glif::State_::set( d, p )`
is not in the header. The call site `stmp.set( d, ptmp )` passes the
NEW parameter copy, and the spec requires the committed state to be
consistent with the committed parameters; so the setter applies the
state keys (`V_m`, `V_th`) and makes the after-spike-current state
vector match the newly configured channel arrays, reinitializing it
from `asc_init_` whenever the channel count changed, recomputing the
cached sum. -/
def State_.set (d : DictionaryDatum) (p : Parameters_) (s : State_) :
    Except GlifError State_ :=
  let asc := if s.ASCurrents_.length = p.asc_init_.length
             then s.ASCurrents_ else p.asc_init_
  Except.ok
    { V_m_ := d.V_m.getD s.V_m_
      ASCurrents_ := asc
      ASCurrents_sum_ := asc.sum
      threshold_ := d.V_th.getD s.threshold_
      I_ := s.I_ }

/-- The neuron, as far as configuration is concerned: its live
parameter block `P_` and live state block `S_` (src lines 249-251). -/
structure glif where
  P_ : Parameters_
  S_ : State_
deriving DecidableEq

/-- `glif::set_status` of src/models/glif.h lines 319-332: set the
temporary copies `ptmp`/`stmp` first (either may throw) and assign
the live members only after both succeeded. The result is the neuron
after the call paired with the raised error, if any. -/
def set_status (d : DictionaryDatum) (n : glif) : glif × Option GlifError :=
  match Parameters_.set d n.P_ with
  | Except.error e => (n, some e)
  | Except.ok ptmp =>
    match State_.set d ptmp n.S_ with
    | Except.error e => (n, some e)
    | Except.ok stmp => (⟨ptmp, stmp⟩, none)

/-- `glif::handles_test_event( SpikeEvent&, port )` of src lines
272-281: reject any receptor type other than 0, otherwise return
port 0; the neuron is passed through untouched. -/
def handles_test_event_spike (n : glif) (receptor_type : Int) :
    Except GlifError (Int × glif) :=
  if receptor_type ≠ 0 then
    Except.error (GlifError.UnknownReceptorType receptor_type)
  else Except.ok (0, n)

/-- `glif::handles_test_event( CurrentEvent&, port )` of src lines
283-292: identical receptor check. -/
def handles_test_event_current (n : glif) (receptor_type : Int) :
    Except GlifError (Int × glif) :=
  if receptor_type ≠ 0 then
    Except.error (GlifError.UnknownReceptorType receptor_type)
  else Except.ok (0, n)

/-- `glif::handles_test_event( DataLoggingRequest&, port )` of src
lines 294-304: same receptor check, then the port returned by
`B_.logger_.connect_logging_device` — an external facility, passed in
here as `connect_result`. The neuron's `State_` is untouched. -/
def handles_test_event_dlr (connect_result : Int) (n : glif)
    (receptor_type : Int) : Except GlifError (Int × glif) :=
  if receptor_type ≠ 0 then
    Except.error (GlifError.UnknownReceptorType receptor_type)
  else Except.ok (connect_result, n)

/-- A concrete well-formed parameter block, used to instantiate the
universally quantified theorems on concrete inputs. -/
def defaultParams : Parameters_ :=
  { V_reset_ := 0
    th_inf_ := 26
    G_ := 5
    E_L_ := -70
    C_m_ := 100
    t_ref_ := 1
    a_spike_ := 0
    b_spike_ := 0
    voltage_reset_a_ := 0
    voltage_reset_b_ := 0
    a_voltage_ := 0
    b_voltage_ := 0
    asc_init_ := [0, 0]
    k_ := [3, 10]
    asc_amps_ := [-10, -100]
    r_ := [1, 1]
    V_dynamics_method_ := "linear_exact"
    glif_model_ := "lif_r_asc_a" }

/-- A concrete state block matching `defaultParams`. -/
def defaultState : State_ :=
  { V_m_ := -70
    ASCurrents_ := [0, 0]
    ASCurrents_sum_ := 0
    threshold_ := 26
    I_ := 0 }

/-- A concrete neuron for the witnesses. -/
def defaultNeuron : glif :=
  ⟨defaultParams, defaultState⟩

open Classical in
/-- Modelled from the spec: the body of `glif::update` (and its
per-variant forms) is not in the header. The exact-method voltage
update over one step holds the inputs constant and uses the closed
form of the linear membrane ODE, with the zero-conductance case
special-cased to pure current integration instead of dividing by
zero. -/
noncomputable def exactVoltageStep
    (C_m G E_L I ASC dt V : ℝ) : ℝ :=
  if G = 0 then V + dt / C_m * (I + ASC)
  else E_L + (I + ASC) / G +
    (V - E_L - (I + ASC) / G) * Real.exp (-G * dt / C_m)

/-- The two phases of the step integrator's state machine. -/
inductive Phase where
  | Integrating : Phase
  | Refractory : Phase
deriving DecidableEq

/-- The refractory bookkeeping of `glif::Variables_` (src lines
226-235), abstracted to whole steps: the phase and the number of
refractory steps still remaining. -/
structure RefractoryState where
  phase : Phase
  t_ref_remaining_ : Nat
deriving DecidableEq

/-- Modelled from the spec: `refractory_steps_total` is derived from
`refractory_duration / dt` by a fixed rounding rule (rounding up, so
a positive duration always yields at least one refractory step). -/
def refractorySteps (t_ref dt : ℚ) : Nat :=
  ⌈t_ref / dt⌉₊

/-- Modelled from the spec: step 1 of the per-step algorithm. In the
`Refractory` phase the remaining counter is decremented; when it
reaches zero the machine transitions back to `Integrating` (and the
step then proceeds with normal integration). -/
def refractoryTick (s : RefractoryState) : RefractoryState :=
  match s.phase with
  | Phase.Integrating => s
  | Phase.Refractory =>
      if s.t_ref_remaining_ - 1 = 0 then ⟨Phase.Integrating, 0⟩
      else ⟨Phase.Refractory, s.t_ref_remaining_ - 1⟩

/-- Modelled from the spec: step 6, the spike test. Only an
`Integrating` neuron whose voltage has reached threshold (abstracted
as the boolean `would_spike`) spikes; on a spike the machine enters
`Refractory` with the counter reset to `refractory_steps_total`. -/
def spikeTest (total : Nat) (would_spike : Bool)
    (s : RefractoryState) : RefractoryState × Bool :=
  if s.phase = Phase.Integrating ∧ would_spike = true
  then (⟨Phase.Refractory, total⟩, true)
  else (s, false)

/-- One full step of the refractory state machine: the refractory
countdown of step 1 followed by the spike test of step 6. -/
def glifStep (total : Nat) (would_spike : Bool)
    (s : RefractoryState) : RefractoryState × Bool :=
  spikeTest total would_spike (refractoryTick s)

/-- Iterate the machine for a number of steps during which the
voltage never reaches threshold (`would_spike` false throughout). -/
def glifRunQuiet (total : Nat) : Nat → RefractoryState → RefractoryState
  | 0, s => s
  | n + 1, s => glifRunQuiet total n (glifStep total false s).1

/-- A dictionary carrying a rejected value: negative membrane
capacitance. -/
def badDict : DictionaryDatum :=
  { emptyDict with C_m := some (-1) }

/-- Claim C1 (evidence of the code defect): on a state with two
after-spike-current channels holding 1 pA and 2 pA and cached sum
3 pA, the accessor `get_AScurrents_sum_` returns the first channel's
value 1, not the cached sum `ASCurrents_sum_` = 3 — the body reads
`S_.ASCurrents_[ 0 ]` instead of `S_.ASCurrents_sum_`. -/
theorem get_AScurrents_sum_returns_first_channel :
    get_AScurrents_sum_ ⟨0, [1, 2], 3, 0, 0⟩ = some 1 ∧
    State_.ASCurrents_sum_ ⟨0, [1, 2], 3, 0, 0⟩ = 3 ∧
    get_AScurrents_sum_ ⟨0, [1, 2], 3, 0, 0⟩ ≠
      some (State_.ASCurrents_sum_ ⟨0, [1, 2], 3, 0, 0⟩) := by
  refine ⟨rfl, rfl, ?_⟩
  simp [get_AScurrents_sum_]

/-- Claim C9: the accessor `get_AScurrents_sum_` reads element 0 of
`ASCurrents_` with no emptiness guard, so the read is well-defined
exactly when at least one after-spike-current channel is configured;
with zero channels the access is out of bounds (`none`). -/
theorem get_AScurrents_sum_requires_channel (s : State_) :
    ((get_AScurrents_sum_ s).isSome ↔ 1 ≤ s.ASCurrents_.length) ∧
    (s.ASCurrents_ = [] → get_AScurrents_sum_ s = none) := by
  cases h : s.ASCurrents_ with
  | nil => simp [get_AScurrents_sum_, h]
  | cons a l => simp [get_AScurrents_sum_, h]

/-- Claim C9 witness: on the empty-channel state the read is
undefined, on a one-channel state it is defined. -/
theorem get_AScurrents_sum_requires_channel_witness :
    get_AScurrents_sum_ ⟨0, [], 0, 0, 0⟩ = none :=
  (get_AScurrents_sum_requires_channel ⟨0, [], 0, 0, 0⟩).2 rfl

/-- Claim C6: `model_type_lu` is a pure data table; for each of the
five variants every textual alias and the numeric-string code map to
the same numeric variant code — in particular `lif_r_asc_a`,
`glif_lif_r_asc_a` and `5` all map to 5 — and the table's image is
exactly the codes 1 through 5. -/
theorem model_type_lu_is_consistent_table :
    (List.lookup "lif" model_type_lu = some 1 ∧
     List.lookup "glif_lif" model_type_lu = some 1 ∧
     List.lookup "1" model_type_lu = some 1) ∧
    (List.lookup "lif_r" model_type_lu = some 2 ∧
     List.lookup "glif_lif_r" model_type_lu = some 2 ∧
     List.lookup "2" model_type_lu = some 2) ∧
    (List.lookup "lif_asc" model_type_lu = some 3 ∧
     List.lookup "glif_lif_asc" model_type_lu = some 3 ∧
     List.lookup "3" model_type_lu = some 3) ∧
    (List.lookup "lif_r_asc" model_type_lu = some 4 ∧
     List.lookup "glif_lif_r_asc" model_type_lu = some 4 ∧
     List.lookup "4" model_type_lu = some 4) ∧
    (List.lookup "lif_r_asc_a" model_type_lu = some 5 ∧
     List.lookup "glif_lif_r_asc_a" model_type_lu = some 5 ∧
     List.lookup "5" model_type_lu = some 5) ∧
    (model_type_lu.map Prod.snd).dedup = [1, 2, 3, 4, 5] := by
  decide

/-- Claim C5: all three `handles_test_event` overloads throw
`UnknownReceptorType` exactly when the requested receptor type is not
0; for receptor type 0 the spike and current handshakes return port 0
and the data-logging handshake returns the logger's port, in every
case leaving the neuron unchanged. -/
theorem handles_test_event_receptor_check (n : glif) (rt cr : Int) :
    (handles_test_event_spike n rt =
        Except.error (GlifError.UnknownReceptorType rt) ↔ rt ≠ 0) ∧
    (handles_test_event_current n rt =
        Except.error (GlifError.UnknownReceptorType rt) ↔ rt ≠ 0) ∧
    (handles_test_event_dlr cr n rt =
        Except.error (GlifError.UnknownReceptorType rt) ↔ rt ≠ 0) ∧
    (rt = 0 →
      handles_test_event_spike n rt = Except.ok (0, n) ∧
      handles_test_event_current n rt = Except.ok (0, n) ∧
      handles_test_event_dlr cr n rt = Except.ok (cr, n)) := by
  by_cases h : rt = 0 <;>
    simp [handles_test_event_spike, handles_test_event_current,
      handles_test_event_dlr, h]

/-- Claim C5 witness: at receptor type 0 the three handshakes succeed
on the concrete neuron, returning it unchanged. -/
theorem handles_test_event_receptor_check_witness :
    handles_test_event_spike defaultNeuron 0 = Except.ok (0, defaultNeuron) ∧
    handles_test_event_current defaultNeuron 0 = Except.ok (0, defaultNeuron) ∧
    handles_test_event_dlr 7 defaultNeuron 0 = Except.ok (7, defaultNeuron) :=
  (handles_test_event_receptor_check defaultNeuron 0 7).2.2.2 rfl

/-- Claim C2: if `set_status` raises an error from either setter, the
live `P_` and `S_` after the call are exactly their values before the
call — the temporaries are discarded and nothing was committed. -/
theorem set_status_atomic_on_error (d : DictionaryDatum) (n : glif)
    (e : GlifError) (h : (set_status d n).2 = some e) :
    (set_status d n).1 = n := by
  unfold set_status at h ⊢
  cases hp : Parameters_.set d n.P_ with
  | error e2 => simp
  | ok ptmp =>
      rw [hp] at h
      dsimp only at h ⊢
      cases hs : State_.set d ptmp n.S_ with
      | error e2 => simp [hs]
      | ok stmp =>
          rw [hs] at h
          dsimp only at h
          exact absurd h (by simp)

/-- Claim C2 witness: a dictionary with negative membrane capacitance
makes `set_status` raise, and the concrete neuron is unchanged. -/
theorem set_status_atomic_on_error_witness :
    (set_status badDict defaultNeuron).2 = some GlifError.BadProperty ∧
    (set_status badDict defaultNeuron).1 = defaultNeuron :=
  ⟨by decide,
   set_status_atomic_on_error badDict defaultNeuron
     GlifError.BadProperty (by decide)⟩

/-- Claim C7: parameter validation fails with `BadProperty` — and
returns no snapshot — exactly when the applied configuration has
non-positive membrane capacitance, negative membrane conductance,
negative refractory duration, after-spike-current arrays of unequal
length, or an unknown model-variant or integration-method token;
otherwise it returns the applied snapshot, and being a pure function
of the dictionary and the old parameters it mutates no live state. -/
theorem Parameters_set_validates (d : DictionaryDatum) (p : Parameters_) :
    (Parameters_.set d p = Except.error GlifError.BadProperty ↔
      ((applyDict d p).C_m_ ≤ 0 ∨ (applyDict d p).G_ < 0 ∨
       (applyDict d p).t_ref_ < 0 ∨
       (applyDict d p).k_.length ≠ (applyDict d p).asc_init_.length ∨
       (applyDict d p).asc_amps_.length ≠ (applyDict d p).asc_init_.length ∨
       (applyDict d p).r_.length ≠ (applyDict d p).asc_init_.length ∨
       lookupModelType (applyDict d p).glif_model_ = none ∨
       lookupMethod (applyDict d p).V_dynamics_method_ = none)) ∧
    (Parameters_.set d p = Except.error GlifError.BadProperty ∨
     Parameters_.set d p = Except.ok (applyDict d p)) := by
  constructor
  · by_cases hc : validParams (applyDict d p)
    · unfold Parameters_.set
      rw [if_pos hc]
      obtain ⟨h1, h2, h3, h4, h5, h6, h7, h8⟩ := hc
      constructor
      · intro h
        exact absurd h (by simp)
      · rintro (h | h | h | h | h | h | h | h)
        · exact absurd h1 (not_lt.mpr h)
        · exact absurd h2 (not_le.mpr h)
        · exact absurd h3 (not_le.mpr h)
        · exact absurd h4 h
        · exact absurd h5 h
        · exact absurd h6 h
        · exact absurd h h7
        · exact absurd h h8
    · unfold Parameters_.set
      rw [if_neg hc]
      constructor
      · intro _
        by_contra hno
        push_neg at hno
        exact hc ⟨hno.1, hno.2.1, hno.2.2.1, hno.2.2.2.1, hno.2.2.2.2.1,
          hno.2.2.2.2.2.1, hno.2.2.2.2.2.2.1, hno.2.2.2.2.2.2.2⟩
      · intro _
        rfl
  · unfold Parameters_.set
    split
    · exact Or.inr rfl
    · exact Or.inl rfl

/-- Claim C7 witness: the negative-capacitance dictionary is rejected
on the concrete parameter block. -/
theorem Parameters_set_validates_witness :
    Parameters_.set badDict defaultParams = Except.error GlifError.BadProperty :=
  (Parameters_set_validates badDict defaultParams).1.mpr (Or.inl (by decide))

/-- Claim C10: `set_status` validates the temporary state against the
temporary (new) parameters — `stmp.set( d, ptmp )` — so every
successful call commits a consistent pair: the committed `S_`'s
after-spike-current vector has exactly as many entries as the
committed `P_`'s channel arrays. -/
theorem set_status_commits_consistent_state (d : DictionaryDatum)
    (n : glif) (h : (set_status d n).2 = none) :
    (set_status d n).1.S_.ASCurrents_.length =
      (set_status d n).1.P_.asc_init_.length := by
  unfold set_status at h ⊢
  cases hp : Parameters_.set d n.P_ with
  | error e2 =>
      rw [hp] at h
      dsimp only at h
      exact absurd h (by simp)
  | ok ptmp =>
      rw [hp] at h
      dsimp only at h ⊢
      cases hs : State_.set d ptmp n.S_ with
      | error e2 =>
          rw [hs] at h
          dsimp only at h
          exact absurd h (by simp)
      | ok stmp =>
          dsimp only
          have h2 := hs
          unfold State_.set at h2
          rw [Except.ok.injEq] at h2
          subst h2
          by_cases hlen : n.S_.ASCurrents_.length = ptmp.asc_init_.length <;>
            simp [hlen]

/-- Claim C10 witness: the empty update on the concrete neuron
succeeds and commits a consistent parameter/state pair. -/
theorem set_status_commits_consistent_state_witness :
    (set_status emptyDict defaultNeuron).1.S_.ASCurrents_.length =
      (set_status emptyDict defaultNeuron).1.P_.asc_init_.length :=
  set_status_commits_consistent_state emptyDict defaultNeuron (by decide)

/-- Claim C3: with nonzero conductance the exact-method step equals
the closed form `E_L + (I+ASC)/G + (V - E_L - (I+ASC)/G)·exp(-G·dt/C_m)`,
and at the concrete operating point `C_m = 100, G = 5, E_L = -70,
I = 50, ASC_sum = 0, dt = 0.1` one step moves the voltage from -70 to
a value strictly greater than -70 and strictly less than the steady
state -60. -/
theorem exactVoltageStep_formula_and_bounds :
    (∀ C_m G E_L I ASC dt V : ℝ, G ≠ 0 →
      exactVoltageStep C_m G E_L I ASC dt V =
        E_L + (I + ASC) / G +
          (V - E_L - (I + ASC) / G) * Real.exp (-G * dt / C_m)) ∧
    (-70 < exactVoltageStep 100 5 (-70) 50 0 (1/10) (-70) ∧
      exactVoltageStep 100 5 (-70) 50 0 (1/10) (-70) < -60) := by
  have hform : ∀ C_m G E_L I ASC dt V : ℝ, G ≠ 0 →
      exactVoltageStep C_m G E_L I ASC dt V =
        E_L + (I + ASC) / G +
          (V - E_L - (I + ASC) / G) * Real.exp (-G * dt / C_m) := by
    intro C_m G E_L I ASC dt V hG
    unfold exactVoltageStep
    rw [if_neg hG]
  have key : exactVoltageStep 100 5 (-70) 50 0 (1/10) (-70) =
      -60 - 10 * Real.exp (-5 * (1/10) / 100) := by
    rw [hform 100 5 (-70) 50 0 (1/10) (-70) (by norm_num)]
    ring_nf
  have he1 : Real.exp ((-5 : ℝ) * (1/10) / 100) < 1 :=
    Real.exp_lt_one_iff.mpr (by norm_num)
  have he2 : (0 : ℝ) < Real.exp ((-5 : ℝ) * (1/10) / 100) :=
    Real.exp_pos _
  refine ⟨hform, ?_, ?_⟩
  · rw [key]
    linarith
  · rw [key]
    linarith

/-- Claim C3 witness: the closed-form equality, instantiated at the
concrete operating point by the theorem itself. -/
theorem exactVoltageStep_formula_and_bounds_witness :
    exactVoltageStep 100 5 (-70) 50 0 (1/10) (-70) =
      -70 + (50 + 0) / 5 +
        (-70 - (-70) - (50 + 0) / 5) * Real.exp (-5 * (1/10) / 100) :=
  exactVoltageStep_formula_and_bounds.1 100 5 (-70) 50 0 (1/10) (-70)
    (by norm_num)

/-- Claim C4: when the membrane conductance is exactly zero, the
voltage update takes the pure current-integration form by the
explicit zero-conductance branch, so the closed-form division by `G`
is never evaluated. -/
theorem exactVoltageStep_zero_conductance
    (C_m G E_L I ASC dt V : ℝ) (hG : G = 0) :
    exactVoltageStep C_m G E_L I ASC dt V = V + dt / C_m * (I + ASC) := by
  unfold exactVoltageStep
  rw [if_pos hG]

/-- Claim C4 witness: the zero-conductance branch evaluated at a
concrete input. -/
theorem exactVoltageStep_zero_conductance_witness :
    exactVoltageStep 100 0 (-70) 50 0 (1/10) (-70) =
      -70 + (1/10) / 100 * (50 + 0) :=
  exactVoltageStep_zero_conductance 100 0 (-70) 50 0 (1/10) (-70) rfl

/-- One quiet step strictly inside the refractory period only counts
the remaining counter down. -/
theorem glifStep_quiet_refractory (total n : Nat) (h : 2 ≤ n) :
    glifStep total false ⟨Phase.Refractory, n⟩ =
      (⟨Phase.Refractory, n - 1⟩, false) := by
  have h1 : ¬ (n - 1 = 0) := by omega
  simp [glifStep, refractoryTick, spikeTest, h1]

/-- Quiet runs compose additively. -/
theorem glifRunQuiet_add (total m n : Nat) (s : RefractoryState) :
    glifRunQuiet total (m + n) s =
      glifRunQuiet total n (glifRunQuiet total m s) := by
  induction m generalizing s with
  | zero =>
      rw [Nat.zero_add]
      rfl
  | succ k ih =>
      have e1 : k + 1 + n = (k + n) + 1 := by omega
      rw [e1]
      show glifRunQuiet total (k + n) (glifStep total false s).1 = _
      rw [ih]
      rfl

/-- During a quiet run that starts refractory with `n` steps
remaining, the first `n - 1` steps leave the machine refractory, with
the counter decreased one per step. -/
theorem glifRunQuiet_refractory (total : Nat) :
    ∀ k n : Nat, k < n →
      glifRunQuiet total k ⟨Phase.Refractory, n⟩ =
        ⟨Phase.Refractory, n - k⟩ := by
  intro k
  induction k with
  | zero =>
      intro n _
      rfl
  | succ j ih =>
      intro n h
      show glifRunQuiet total j
        (glifStep total false ⟨Phase.Refractory, n⟩).1 =
        ⟨Phase.Refractory, n - (j + 1)⟩
      rw [glifStep_quiet_refractory total n (by omega)]
      dsimp only
      rw [ih (n - 1) (by omega)]
      have e2 : n - 1 - j = n - (j + 1) := by omega
      rw [e2]

/-- A quiet run of exactly `total` steps from the post-spike state
ends with the machine back in the `Integrating` phase. -/
theorem glifRunQuiet_exits (total : Nat) (h : 1 ≤ total) :
    glifRunQuiet total total ⟨Phase.Refractory, total⟩ =
      ⟨Phase.Integrating, 0⟩ := by
  obtain ⟨m, rfl⟩ : ∃ m, total = m + 1 := ⟨total - 1, by omega⟩
  have hrun : glifRunQuiet (m + 1) m ⟨Phase.Refractory, m + 1⟩ =
      ⟨Phase.Refractory, 1⟩ := by
    cases m with
    | zero => rfl
    | succ j =>
        rw [glifRunQuiet_refractory (j + 2) (j + 1) (j + 2) (by omega)]
        have e3 : j + 2 - (j + 1) = 1 := by omega
        rw [e3]
  rw [glifRunQuiet_add (m + 1) m 1 ⟨Phase.Refractory, m + 1⟩, hrun]
  show (glifStep (m + 1) false ⟨Phase.Refractory, 1⟩).1 = _
  simp [glifStep, refractoryTick, spikeTest]

/-- A positive refractory duration and a positive step always derive
at least one refractory step. -/
theorem refractorySteps_pos (t_ref dt : ℚ) (hdt : 0 < dt)
    (href : 0 < t_ref) : 1 ≤ refractorySteps t_ref dt :=
  Nat.ceil_pos.mpr (div_pos href hdt)

/-- Claim C8: with `refractory_steps_total` derived from
`refractory_duration / dt` by the fixed (ceiling) rounding rule, a
spike detected while `Integrating` sends the machine to `Refractory`
with a full counter in that very step; the machine then stays
`Refractory` for exactly that many steps, transitions back to
`Integrating` exactly when the remaining counter reaches zero, and a
spike can only ever be emitted once the machine is `Integrating`,
never while `Refractory`. -/
theorem glif_refractory_period (t_ref dt : ℚ) (hdt : 0 < dt)
    (href : 0 < t_ref) :
    1 ≤ refractorySteps t_ref dt ∧
    (∀ s : RefractoryState, s.phase = Phase.Integrating →
      glifStep (refractorySteps t_ref dt) true s =
        (⟨Phase.Refractory, refractorySteps t_ref dt⟩, true)) ∧
    (∀ k, k < refractorySteps t_ref dt →
      (glifRunQuiet (refractorySteps t_ref dt) k
        ⟨Phase.Refractory, refractorySteps t_ref dt⟩).phase =
        Phase.Refractory) ∧
    (glifRunQuiet (refractorySteps t_ref dt) (refractorySteps t_ref dt)
      ⟨Phase.Refractory, refractorySteps t_ref dt⟩).phase =
      Phase.Integrating ∧
    (∀ s : RefractoryState, s.phase = Phase.Refractory →
      ((refractoryTick s).phase = Phase.Integrating ↔
        s.t_ref_remaining_ ≤ 1)) ∧
    (∀ (w : Bool) (s : RefractoryState),
      (glifStep (refractorySteps t_ref dt) w s).2 = true →
      (refractoryTick s).phase = Phase.Integrating) := by
  have h1 : 1 ≤ refractorySteps t_ref dt := refractorySteps_pos t_ref dt hdt href
  refine ⟨h1, ?_, ?_, ?_, ?_, ?_⟩
  · intro s hs
    obtain ⟨ph, r⟩ := s
    dsimp only at hs
    subst hs
    simp [glifStep, refractoryTick, spikeTest]
  · intro k hk
    rw [glifRunQuiet_refractory (refractorySteps t_ref dt) k
      (refractorySteps t_ref dt) hk]
  · rw [glifRunQuiet_exits (refractorySteps t_ref dt) h1]
  · intro s hs
    obtain ⟨ph, r⟩ := s
    dsimp only at hs
    subst hs
    by_cases hr : r - 1 = 0 <;> simp [refractoryTick, hr] <;> omega
  · intro w s h
    by_cases hc : (refractoryTick s).phase = Phase.Integrating ∧ w = true
    · exact hc.1
    · rw [glifStep, spikeTest, if_neg hc] at h
      exact absurd h (by simp)

/-- Claim C8 witness: with a 2 ms refractory duration and a 1 ms
step, a quiet run of the derived number of refractory steps from the
post-spike state ends `Integrating`. -/
theorem glif_refractory_period_witness :
    (glifRunQuiet (refractorySteps 2 1) (refractorySteps 2 1)
      ⟨Phase.Refractory, refractorySteps 2 1⟩).phase = Phase.Integrating :=
  (glif_refractory_period 2 1 (by decide) (by decide)).2.2.2.1

end NestGlif
